import Mathlib

/-!
Shallow embedding of the MiniMax provider adapter of `opencode-mystatus`
(`src/plugin/lib/minimax.ts` together with the shared types of
`src/plugin/lib/types.ts`).

Modelling conventions:
* JavaScript numbers are embedded as `ℚ` (the quota API carries exact
  integral counts, percentages and millisecond timestamps; no float-specific
  behaviour is exercised by the adapter).
* Fields the adapter reads defensively (`== null` checks, `??` coalescing)
  are embedded as `Option ℚ` / `Option String`, `none` standing for a
  missing/`null`/`undefined` JSON field.
* The ambient world (credential file contents, network outcome, clock) is
  passed explicitly; the adapter's fallible steps return `Except`/`Option`
  exactly where the TypeScript may throw or yield `null`.
* The helper module `utils.ts` and the string table `i18n.ts` are imported by
  `minimax.ts` but are not part of this sample; their few entry points are
  modelled from the spec (each such definition says so in its doc comment).
-/

-- ============================================================================
-- Data model (types.ts and the response envelope of minimax.ts)
-- ============================================================================

/-- `QueryResult` from `types.ts`: `{ success: boolean, output?: string,
error?: string }`. -/
structure QueryResult where
  success : Bool
  output : Option String
  error : Option String
deriving Repr, DecidableEq

/-- `base_resp` part of the MiniMax `/coding_plan/remains` envelope. -/
structure BaseResp where
  status_code : Int
  status_msg : String
deriving Repr, DecidableEq

/-- `data` payload of the MiniMax envelope.  The TypeScript interface declares
the numeric fields as required, but the adapter handles every one of them
being absent at runtime (`== null` guard, `??` coalescing), so each is
embedded as an `Option`. -/
structure MiniMaxData where
  plan_name : Option String
  total_prompts : Option ℚ
  used_prompts : Option ℚ
  remaining_prompts : Option ℚ
  next_reset_time : Option ℚ
  usage_percentage : Option ℚ
deriving Repr, DecidableEq

/-- `MiniMaxRemainsResponse` envelope of `minimax.ts`. -/
structure MiniMaxRemainsResponse where
  base_resp : BaseResp
  data : Option MiniMaxData
deriving Repr, DecidableEq

/-- `HIGH_USAGE_THRESHOLD` from `types.ts`. -/
def HIGH_USAGE_THRESHOLD : ℚ := 80

-- ============================================================================
-- Spec-modelled collaborators (utils.ts and i18n.ts, not in the sample)
-- ============================================================================

namespace t

/-- Modelled from the spec: `i18n.ts` label for the account line. -/
def account : String := "Account:"

/-- Modelled from the spec: `i18n.ts` "no quota data" informational line. -/
def noQuotaData : String := "No quota data available"

/-- Modelled from the spec: `i18n.ts` heading of the prompt-limit block. -/
def minimaxPromptLimit : String := "Prompt Limit (5h window)"

/-- Modelled from the spec: `i18n.ts` label for the used-counts line. -/
def used : String := "Used"

/-- Modelled from the spec: `i18n.ts` template rendering the remaining
percentage. -/
def remaining (p : ℚ) : String := "Remaining: " ++ toString p ++ "%"

/-- Modelled from the spec: `i18n.ts` template rendering the reset
countdown. -/
def resetIn (d : String) : String := "Resets in: " ++ d

/-- Modelled from the spec: `i18n.ts` high-usage warning line. -/
def limitReached : String := "Warning: usage limit almost reached"

/-- Modelled from the spec: `i18n.ts` user-actionable message asking for
`~/.config/opencode/minimax-session.json`. -/
def minimaxConfigRequired : String :=
  "MiniMax session cookie required: create ~/.config/opencode/minimax-session.json"

/-- Modelled from the spec: `i18n.ts` template for API errors; the message
carries the status/code together with the raw body or status message. -/
def minimaxApiError (code : Int) (msg : String) : String :=
  "MiniMax API error (" ++ toString code ++ "): " ++ msg

end t

/-- Modelled from the spec: `maskString` (`utils.ts`) masks the secret,
revealing only the first and last few characters. -/
def maskString (s : String) (keep : ℕ) : String :=
  if s.length ≤ keep then s
  else s.take (keep / 2) ++ "..." ++ s.drop (s.length - keep / 2)

/-- Modelled from the spec: `calcRemainPercent` (`utils.ts`) turns a usage
percentage into the remaining percentage `100 - usagePercent`, clamped to
`[0, 100]`. -/
def calcRemainPercent (usagePercent : ℚ) : ℚ :=
  max 0 (min 100 (100 - usagePercent))

/-- Modelled from the spec: `createProgressBar` (`utils.ts`) renders a
textual progress bar proportional to the remaining percentage. -/
def createProgressBar (remainPercent : ℚ) : String :=
  let width : ℤ := 20
  let filled : ℤ := min width (max 0 ⌊remainPercent * width / 100⌋)
  "[" ++ String.mk (List.replicate filled.toNat '#')
      ++ String.mk (List.replicate (width - filled).toNat '-') ++ "]"

/-- Modelled from the spec: `formatDuration` (`utils.ts`) renders a number of
seconds as a human-readable duration (e.g. `1h0m`). -/
def formatDuration (seconds : ℤ) : String :=
  toString (seconds / 3600) ++ "h" ++ toString (seconds % 3600 / 60) ++ "m"

-- ============================================================================
-- Credential loading (loadMiniMaxSession)
-- ============================================================================

/-- State of `~/.config/opencode/minimax-session.json` as the adapter can
observe it: `readFile` throws (file missing or unreadable), `JSON.parse`
throws (malformed JSON), or the parse succeeds and the `session` field is
present or absent. -/
inductive CredFile
  | absent
  | unparsable
  | parsed (session : Option String)
deriving Repr, DecidableEq

/-- `loadMiniMaxSession` of `minimax.ts`: any exception from reading or
parsing is caught and becomes `null`; a parsed config yields
`config.session || null`, so a missing or empty-string `session` field is
normalized to `null` (JavaScript `||` treats `""` as falsy). -/
def loadMiniMaxSession : CredFile → Option String
  | .absent => none
  | .unparsable => none
  | .parsed none => none
  | .parsed (some s) => if s = "" then none else some s

-- ============================================================================
-- Transport (fetchMiniMaxUsage)
-- ============================================================================

/-- An HTTP response as `fetchMiniMaxUsage` consumes it: the `ok` flag and
`status` of the `Response`, the text body read on the error path, and the
result of `response.json()` (`Except.error` when parsing throws, carrying the
exception's message). -/
structure HttpResponse where
  ok : Bool
  status : Int
  bodyText : String
  jsonBody : Except String MiniMaxRemainsResponse

/-- Outcome of the single `fetchWithTimeout` call: either the call itself
throws (timeout, network failure — message carried), or a response arrives. -/
inductive FetchOutcome
  | thrown (msg : String)
  | response (r : HttpResponse)

/-- `fetchMiniMaxUsage` of `minimax.ts`, as a function of the transport
outcome: propagates a transport throw; on `!response.ok` throws
`t.minimaxApiError status bodyText`; on a non-zero `base_resp.status_code`
throws `t.minimaxApiError status_code (status_msg || "Unknown error")`;
otherwise returns the envelope. -/
def fetchMiniMaxUsage : FetchOutcome → Except String MiniMaxRemainsResponse
  | .thrown msg => .error msg
  | .response r =>
    if r.ok = false then .error (t.minimaxApiError r.status r.bodyText)
    else
      match r.jsonBody with
      | .error e => .error e
      | .ok data =>
        if data.base_resp.status_code ≠ 0 then
          .error (t.minimaxApiError data.base_resp.status_code
            (if data.base_resp.status_msg = "" then "Unknown error"
             else data.base_resp.status_msg))
        else .ok data

/-- Well-formedness of the environment: messages of exceptions thrown by the
runtime (`fetchWithTimeout` itself, `response.json()`) are non-empty strings.
This is a property of the JavaScript runtime and of `utils.ts`, both outside
this sample; every error message minted inside `minimax.ts` is proved
non-empty without it. -/
def FetchOutcome.wf : FetchOutcome → Prop
  | .thrown msg => msg ≠ ""
  | .response r =>
    match r.jsonBody with
    | .error e => e ≠ ""
    | .ok _ => True

-- ============================================================================
-- Formatting (formatMiniMaxUsage)
-- ============================================================================

/-- The plan label of the header line: `d?.plan_name ? "Coding Plan - " +
d.plan_name : "Coding Plan"` (JavaScript truthiness: an empty string counts
as absent). -/
def planLabelOf : Option MiniMaxData → String
  | none => "Coding Plan"
  | some d =>
    match d.plan_name with
    | some p => if p = "" then "Coding Plan" else "Coding Plan - " ++ p
    | none => "Coding Plan"

/-- The account header line pushed first by `formatMiniMaxUsage`. -/
def headerLine (resp : MiniMaxRemainsResponse) (session : String) : String :=
  t.account ++ "        " ++ maskString session 8 ++ " (" ++ planLabelOf resp.data ++ ")"

/-- `const total = d.total_prompts ?? 0`. -/
def totalOf (d : MiniMaxData) : ℚ := d.total_prompts.getD 0

/-- `const used = d.used_prompts ?? total - (d.remaining_prompts ?? total)`. -/
def usedOf (d : MiniMaxData) : ℚ :=
  d.used_prompts.getD (totalOf d - d.remaining_prompts.getD (totalOf d))

/-- `const usagePercent = d.usage_percentage ?? (total > 0 ? (used / total) *
100 : 0)`: an explicit provider percentage takes precedence; otherwise the
percentage is derived from the counts when `total > 0`. -/
def usagePercentOf (d : MiniMaxData) : ℚ :=
  d.usage_percentage.getD
    (if 0 < totalOf d then usedOf d / totalOf d * 100 else 0)

/-- `Math.max(0, Math.floor((d.next_reset_time - Date.now()) / 1000))`. -/
def resetSecondsOf (nextResetTime now : ℚ) : ℤ :=
  max 0 ⌊(nextResetTime - now) / 1000⌋

/-- The optional reset-countdown line: pushed only under
`if (d.next_reset_time)`, i.e. only when the field is present and non-zero
(JavaScript truthiness). -/
def resetLinesOf (nextResetTime : Option ℚ) (now : ℚ) : List String :=
  match nextResetTime with
  | some nrt =>
    if nrt ≠ 0 then [t.resetIn (formatDuration (resetSecondsOf nrt now))]
    else []
  | none => []

/-- The lines array built by `formatMiniMaxUsage` (`minimax.ts`), before the
final `join("\n")`.  `Date.now()` is passed in as `now` (milliseconds). -/
def formatMiniMaxUsageLines (resp : MiniMaxRemainsResponse) (session : String)
    (now : ℚ) : List String :=
  match resp.data with
  | none => [headerLine resp session, "", t.noQuotaData]
  | some d =>
    if d.total_prompts = none ∧ d.remaining_prompts = none then
      [headerLine resp session, "", t.noQuotaData]
    else
      let total := totalOf d
      let used := usedOf d
      let usagePercent := usagePercentOf d
      let remainPercent := calcRemainPercent usagePercent
      [headerLine resp session, "",
        t.minimaxPromptLimit,
        createProgressBar remainPercent ++ " " ++ t.remaining remainPercent,
        t.used ++ ": " ++ toString used ++ " / " ++ toString total ++ " prompts"]
      ++ resetLinesOf d.next_reset_time now
      ++ (if HIGH_USAGE_THRESHOLD ≤ usagePercent then ["", t.limitReached] else [])

/-- `lines.join("\n")`. -/
def joinLines : List String → String
  | [] => ""
  | [l] => l
  | l :: rest => l ++ "\n" ++ joinLines rest

/-- `formatMiniMaxUsage` of `minimax.ts`. -/
def formatMiniMaxUsage (resp : MiniMaxRemainsResponse) (session : String)
    (now : ℚ) : String :=
  joinLines (formatMiniMaxUsageLines resp session now)

-- ============================================================================
-- Query façade (queryMiniMaxUsage)
-- ============================================================================

/-- `queryMiniMaxUsage` of `minimax.ts`, instrumented: the second component
records whether `fetchWithTimeout` was invoked.  The result type mirrors the
declared TypeScript signature `Promise<QueryResult | null>` together with
the possibility of an uncaught exception (`Except.error`): the body first
loads the session (which never throws), returns the config-required failure
when it is absent, and otherwise runs fetch + format inside `try`/`catch`,
converting any thrown message into the `error` field. -/
def queryMiniMaxUsageTr (cred : CredFile) (net : FetchOutcome) (now : ℚ) :
    Except String (Option QueryResult) × Bool :=
  match loadMiniMaxSession cred with
  | none =>
    (.ok (some { success := false, output := none, error := some t.minimaxConfigRequired }),
      false)
  | some session =>
    match fetchMiniMaxUsage net with
    | .error e =>
      (.ok (some { success := false, output := none, error := some e }), true)
    | .ok usage =>
      (.ok (some { success := true,
                   output := some (formatMiniMaxUsage usage session now),
                   error := none }), true)

/-- `queryMiniMaxUsage` proper (the returned value). -/
def queryMiniMaxUsage (cred : CredFile) (net : FetchOutcome) (now : ℚ) :
    Except String (Option QueryResult) :=
  (queryMiniMaxUsageTr cred net now).1

-- ============================================================================
-- Concrete inputs for counterexamples and witnesses
-- ============================================================================

/-- Envelope payload with only `remaining_prompts` set: no explicit
percentage, no total, hence no percentage is derivable from counts. -/
def c1Data : MiniMaxData :=
  { plan_name := none, total_prompts := none, used_prompts := none,
    remaining_prompts := some 5, next_reset_time := none,
    usage_percentage := none }

/-- Successful envelope carrying `c1Data`. -/
def c1Resp : MiniMaxRemainsResponse :=
  { base_resp := { status_code := 0, status_msg := "ok" }, data := some c1Data }

/-- Successful envelope with no `data` payload at all. -/
def c1wResp : MiniMaxRemainsResponse :=
  { base_resp := { status_code := 0, status_msg := "ok" }, data := none }

/-- Envelope payload with an explicit usage percentage but both counts
absent. -/
def c2Data : MiniMaxData :=
  { plan_name := none, total_prompts := none, used_prompts := none,
    remaining_prompts := none, next_reset_time := none,
    usage_percentage := some 50 }

/-- Successful envelope carrying `c2Data`. -/
def c2Resp : MiniMaxRemainsResponse :=
  { base_resp := { status_code := 0, status_msg := "ok" }, data := some c2Data }

/-- Envelope payload where the explicit percentage (50) disagrees with the
count-derived one (10): the explicit value must win. -/
def c2wData : MiniMaxData :=
  { plan_name := none, total_prompts := some 100, used_prompts := some 10,
    remaining_prompts := none, next_reset_time := none,
    usage_percentage := some 50 }

/-- Successful envelope carrying `c2wData`. -/
def c2wResp : MiniMaxRemainsResponse :=
  { base_resp := { status_code := 0, status_msg := "ok" }, data := some c2wData }

/-- Envelope payload with counts only: 85 used of 100. -/
def c5Data : MiniMaxData :=
  { plan_name := none, total_prompts := some 100, used_prompts := some 85,
    remaining_prompts := none, next_reset_time := none,
    usage_percentage := none }

/-- Successful envelope carrying `c5Data`. -/
def c5Resp : MiniMaxRemainsResponse :=
  { base_resp := { status_code := 0, status_msg := "ok" }, data := some c5Data }

/-- Envelope payload with an explicit 85% usage percentage. -/
def c6Data : MiniMaxData :=
  { plan_name := none, total_prompts := some 100, used_prompts := some 85,
    remaining_prompts := none, next_reset_time := none,
    usage_percentage := some 85 }

/-- Successful envelope carrying `c6Data`. -/
def c6Resp : MiniMaxRemainsResponse :=
  { base_resp := { status_code := 0, status_msg := "ok" }, data := some c6Data }

/-- Envelope payload with a reset timestamp (1000 ms) in the past relative
to the witness clock. -/
def c7Data : MiniMaxData :=
  { plan_name := none, total_prompts := some 100, used_prompts := some 10,
    remaining_prompts := none, next_reset_time := some 1000,
    usage_percentage := none }

/-- Successful envelope carrying `c7Data`. -/
def c7Resp : MiniMaxRemainsResponse :=
  { base_resp := { status_code := 0, status_msg := "ok" }, data := some c7Data }

/-- Envelope whose `base_resp` reports the provider-internal failure
`status_code = 1`, `status_msg = "invalid session"`. -/
def c9Env : MiniMaxRemainsResponse :=
  { base_resp := { status_code := 1, status_msg := "invalid session" },
    data := none }

/-- HTTP 200 response wrapping the failing envelope `c9Env`. -/
def c9Http : HttpResponse :=
  { ok := true, status := 200, bodyText := "", jsonBody := .ok c9Env }

-- ============================================================================
-- Helper lemmas
-- ============================================================================

/-- Two strings whose first characters differ are different. -/
theorem string_ne_of_head_ne {a b : String} (h : a.data.head? ≠ b.data.head?) :
    a ≠ b :=
  fun e => h (congrArg (fun s => s.data.head?) e)

/-- A string of positive length is not the empty string. -/
theorem string_ne_empty_of_length_pos {a : String} (h : 0 < a.length) :
    a ≠ "" := by
  intro e
  subst e
  exact absurd h (by decide)

/-- The first character of `l ++ r` is the first character of `l` when `l` is
non-empty. -/
theorem head_of_append {l r : String} {c : Char} (h : l.data.head? = some c) :
    (l ++ r).data.head? = some c := by
  rw [String.data_append]
  cases l with
  | mk data =>
    cases data with
    | nil => simp at h
    | cons a as => simpa using h

/-- `joinLines` of a non-empty list is at least as long as its first line. -/
theorem head_length_le_joinLines (a : String) (rest : List String) :
    a.length ≤ (joinLines (a :: rest)).length := by
  cases rest with
  | nil => simp [joinLines]
  | cons b r =>
    simp only [joinLines, String.length_append]
    omega

/-- The lines array always starts with the account header line. -/
theorem formatLines_head (resp : MiniMaxRemainsResponse) (session : String)
    (now : ℚ) :
    ∃ rest, formatMiniMaxUsageLines resp session now =
      headerLine resp session :: rest := by
  unfold formatMiniMaxUsageLines
  rcases resp.data with _ | d
  · exact ⟨_, rfl⟩
  · dsimp only
    split
    · exact ⟨_, rfl⟩
    · exact ⟨_, rfl⟩

/-- The header line starts with the `Account:` label's first character. -/
theorem headerLine_head (resp : MiniMaxRemainsResponse) (session : String) :
    (headerLine resp session).data.head? = some 'A' := by
  unfold headerLine
  apply head_of_append
  apply head_of_append
  apply head_of_append
  apply head_of_append
  apply head_of_append
  rfl

/-- The header line is at least as long as the `Account:` label. -/
theorem headerLine_length (resp : MiniMaxRemainsResponse) (session : String) :
    t.account.length ≤ (headerLine resp session).length := by
  unfold headerLine
  simp only [String.length_append]
  omega

/-- The formatted report is never the empty string. -/
theorem formatMiniMaxUsage_ne_empty (resp : MiniMaxRemainsResponse)
    (session : String) (now : ℚ) :
    formatMiniMaxUsage resp session now ≠ "" := by
  obtain ⟨rest, hrest⟩ := formatLines_head resp session now
  apply string_ne_empty_of_length_pos
  unfold formatMiniMaxUsage
  rw [hrest]
  have h1 := head_length_le_joinLines (headerLine resp session) rest
  have h2 := headerLine_length resp session
  have h3 : t.account.length = 8 := rfl
  omega

/-- `t.minimaxApiError` always produces a non-empty message. -/
theorem minimaxApiError_ne_empty (code : Int) (msg : String) :
    t.minimaxApiError code msg ≠ "" := by
  apply string_ne_empty_of_length_pos
  unfold t.minimaxApiError
  simp only [String.length_append]
  have : 0 < "MiniMax API error (".length := by decide
  omega

/-- Any error produced by `fetchMiniMaxUsage` in a well-formed environment is
a non-empty message. -/
theorem fetchMiniMaxUsage_error_ne_empty {net : FetchOutcome} {e : String}
    (hwf : net.wf) (h : fetchMiniMaxUsage net = .error e) : e ≠ "" := by
  cases net with
  | thrown msg =>
    simp only [fetchMiniMaxUsage, Except.error.injEq] at h
    subst h
    exact hwf
  | response r =>
    simp only [fetchMiniMaxUsage] at h
    split at h
    · rw [Except.error.injEq] at h
      subst h
      exact minimaxApiError_ne_empty _ _
    · rcases hj : r.jsonBody with je | jd
      · rw [hj] at h
        rw [Except.error.injEq] at h
        subst h
        simpa [FetchOutcome.wf, hj] using hwf
      · rw [hj] at h
        dsimp only at h
        split at h
        · rw [Except.error.injEq] at h
          subst h
          exact minimaxApiError_ne_empty _ _
        · exact absurd h (by simp)

/-- The progress bar starts with its opening bracket. -/
theorem createProgressBar_head (r : ℚ) :
    (createProgressBar r).data.head? = some '[' := by
  unfold createProgressBar
  dsimp only
  apply head_of_append
  apply head_of_append
  apply head_of_append
  rfl

/-- The progress-bar line starts with the bar's opening bracket. -/
theorem barLine_head (r : ℚ) :
    (createProgressBar r ++ " " ++ t.remaining r).data.head? = some '[' := by
  apply head_of_append
  apply head_of_append
  exact createProgressBar_head r

/-- The used-counts line starts with the `Used` label's first character. -/
theorem usedLine_head (u tt : ℚ) :
    (t.used ++ ": " ++ toString u ++ " / " ++ toString tt ++ " prompts").data.head?
      = some 'U' := by
  apply head_of_append
  apply head_of_append
  apply head_of_append
  apply head_of_append
  apply head_of_append
  rfl

/-- The reset-countdown line starts with the reset label's first character. -/
theorem resetIn_head (s : String) :
    (t.resetIn s).data.head? = some 'R' := by
  apply head_of_append
  rfl

-- ============================================================================
-- Claims
-- ============================================================================

/-- C1 (counterexample): an envelope with no explicit `usage_percentage`, no
`total_prompts` and no `used_prompts` — so no usage percentage is derivable
from counts — but with `remaining_prompts` present, is NOT rendered as the
three-line "no quota data" report: the guard in `formatMiniMaxUsage` only
checks `total_prompts` and `remaining_prompts`, so this envelope takes the
numeric path. -/
theorem C1_counterexample :
    c1Data.usage_percentage = none ∧ c1Data.total_prompts = none ∧
    c1Data.used_prompts = none ∧ c1Resp.data = some c1Data ∧
    formatMiniMaxUsageLines c1Resp "opaque-session-cookie" 0 ≠
      [headerLine c1Resp "opaque-session-cookie", "", t.noQuotaData] := by
  refine ⟨rfl, rfl, rfl, rfl, fun h => ?_⟩
  have hlen := congrArg List.length h
  have h5 : (formatMiniMaxUsageLines c1Resp "opaque-session-cookie" 0).length = 5 := rfl
  rw [h5] at hlen
  simp at hlen

/-- C1 (amended): whenever the `data` payload is absent, or both
`total_prompts` and `remaining_prompts` are null, `formatMiniMaxUsage`
produces exactly the header line, a blank separator and the single "no
quota data" line — no progress bar, counts, reset or warning lines. -/
theorem C1_no_quota_exact (resp : MiniMaxRemainsResponse) (session : String)
    (now : ℚ)
    (h : resp.data = none ∨
      ∃ d, resp.data = some d ∧ d.total_prompts = none ∧
        d.remaining_prompts = none) :
    formatMiniMaxUsageLines resp session now =
      [headerLine resp session, "", t.noQuotaData] := by
  rcases h with h | ⟨d, hd, h1, h2⟩
  · simp [formatMiniMaxUsageLines, h]
  · simp only [formatMiniMaxUsageLines, hd]
    rw [if_pos ⟨h1, h2⟩]

/-- C1 (witness): the amended theorem applied to an envelope with no data
payload. -/
theorem C1_witness :
    formatMiniMaxUsageLines c1wResp "abcdef" 0 =
      [headerLine c1wResp "abcdef", "", t.noQuotaData] :=
  C1_no_quota_exact c1wResp "abcdef" 0 (Or.inl rfl)

/-- C2 (counterexample): an envelope with an explicit `usage_percentage` of
50 but both counts null is rendered as the "no quota data" report: no
remaining-percentage line appears at all, so the report does not show
`100 - 50`. -/
theorem C2_counterexample :
    c2Data.usage_percentage = some 50 ∧
    formatMiniMaxUsageLines c2Resp "opaque-session-cookie" 0 =
      [headerLine c2Resp "opaque-session-cookie", "", t.noQuotaData] ∧
    (createProgressBar (calcRemainPercent 50) ++ " " ++
        t.remaining (calcRemainPercent 50)) ∉
      formatMiniMaxUsageLines c2Resp "opaque-session-cookie" 0 := by
  have hq : formatMiniMaxUsageLines c2Resp "opaque-session-cookie" 0 =
      [headerLine c2Resp "opaque-session-cookie", "", t.noQuotaData] := rfl
  refine ⟨rfl, hq, ?_⟩
  rw [hq]
  intro hmem
  simp only [List.mem_cons, List.not_mem_nil, or_false] at hmem
  rcases hmem with h | h | h
  · exact string_ne_of_head_ne
      (by rw [barLine_head, headerLine_head]; decide) h
  · exact string_ne_of_head_ne (by rw [barLine_head]; decide) h
  · exact string_ne_of_head_ne (by rw [barLine_head]; decide) h

/-- C2 (amended): for every envelope whose payload carries an explicit
`usage_percentage` `p` and at least one of `total_prompts` /
`remaining_prompts` (so the numeric path is taken), the computed usage
percentage is `p` — taking precedence over any count-derived value — and the
report's remaining-percentage line shows `calcRemainPercent p`, which equals
`100 - p` whenever `p` lies in its documented range `[0, 100]`. -/
theorem C2_explicit_percent_precedence (resp : MiniMaxRemainsResponse)
    (d : MiniMaxData) (session : String) (now p : ℚ)
    (hd : resp.data = some d) (hp : d.usage_percentage = some p)
    (hpath : d.total_prompts ≠ none ∨ d.remaining_prompts ≠ none) :
    usagePercentOf d = p ∧
    (createProgressBar (calcRemainPercent p) ++ " " ++
        t.remaining (calcRemainPercent p)) ∈
      formatMiniMaxUsageLines resp session now ∧
    (0 ≤ p → p ≤ 100 → calcRemainPercent p = 100 - p) := by
  have hup : usagePercentOf d = p := by
    rw [usagePercentOf, hp]
    rfl
  refine ⟨hup, ?_, ?_⟩
  · simp only [formatMiniMaxUsageLines, hd]
    rw [if_neg (fun hcontra => hpath.elim (fun hne => hne hcontra.1)
      (fun hne => hne hcontra.2))]
    rw [hup]
    apply List.mem_append_left
    apply List.mem_append_left
    simp
  · intro h0 h100
    rw [calcRemainPercent, min_eq_right (by linarith), max_eq_right (by linarith)]

/-- C2 (witness): the amended theorem applied to an envelope whose explicit
percentage (50) disagrees with the count-derived one (10 of 100): the
explicit value wins and `calcRemainPercent 50 = 100 - 50`. -/
theorem C2_witness :
    usagePercentOf c2wData = 50 ∧
    (createProgressBar (calcRemainPercent 50) ++ " " ++
        t.remaining (calcRemainPercent 50)) ∈
      formatMiniMaxUsageLines c2wResp "opaque-session-cookie" 0 ∧
    calcRemainPercent 50 = 100 - 50 := by
  have h := C2_explicit_percent_precedence c2wResp c2wData
    "opaque-session-cookie" 0 50 rfl rfl (Or.inl (by decide))
  exact ⟨h.1, h.2.1, h.2.2 (by norm_num) (by norm_num)⟩

/-- C3: for every credential-file state, transport outcome (including thrown
exceptions) and clock value, `queryMiniMaxUsage` evaluates to `.ok (some r)`
for some `QueryResult` `r`: it never propagates an exception (never `.error`)
and never returns `null` (never `some none`), despite the declared
`QueryResult | null` return type. -/
theorem C3_always_returns_result (cred : CredFile) (net : FetchOutcome)
    (now : ℚ) :
    ∃ r : QueryResult, queryMiniMaxUsage cred net now = .ok (some r) := by
  rcases h : loadMiniMaxSession cred with _ | s <;>
    simp only [queryMiniMaxUsage, queryMiniMaxUsageTr, h]
  · exact ⟨_, rfl⟩
  · rcases hf : fetchMiniMaxUsage net with e | u <;> simp only [hf]
    · exact ⟨_, rfl⟩
    · exact ⟨_, rfl⟩

/-- C4: every `QueryResult` returned by `queryMiniMaxUsage` populates exactly
one of `output`/`error`: on `success = true` the output is a non-empty
string and `error` is unset; on `success = false` the error is a non-empty
string and `output` is unset.  The well-formedness hypothesis only states
that exceptions thrown by the runtime outside this module
(`fetchWithTimeout`, `response.json()`) stringify to non-empty messages. -/
theorem C4_exactly_one_of_output_error (cred : CredFile) (net : FetchOutcome)
    (now : ℚ) (r : QueryResult) (hwf : net.wf)
    (h : queryMiniMaxUsage cred net now = .ok (some r)) :
    (r.success = true → (∃ s, r.output = some s ∧ s ≠ "") ∧ r.error = none) ∧
    (r.success = false → (∃ s, r.error = some s ∧ s ≠ "") ∧ r.output = none) := by
  rcases hl : loadMiniMaxSession cred with _ | sess
  · simp only [queryMiniMaxUsage, queryMiniMaxUsageTr, hl,
      Except.ok.injEq, Option.some.injEq] at h
    subst h
    refine ⟨fun hs => by simp at hs, fun _ => ⟨⟨_, rfl, by decide⟩, rfl⟩⟩
  · rcases hf : fetchMiniMaxUsage net with e | u
    · simp only [queryMiniMaxUsage, queryMiniMaxUsageTr, hl, hf,
        Except.ok.injEq, Option.some.injEq] at h
      subst h
      exact ⟨fun hs => by simp at hs,
        fun _ => ⟨⟨e, rfl, fetchMiniMaxUsage_error_ne_empty hwf hf⟩, rfl⟩⟩
    · simp only [queryMiniMaxUsage, queryMiniMaxUsageTr, hl, hf,
        Except.ok.injEq, Option.some.injEq] at h
      subst h
      exact ⟨fun _ => ⟨⟨_, rfl, formatMiniMaxUsage_ne_empty u sess now⟩, rfl⟩,
        fun hs => by simp at hs⟩

/-- C4 (witness): the invariant at a concrete failing query (transport threw
"network timeout" with a configured session). -/
theorem C4_witness :
    (∃ s, (QueryResult.mk false none (some "network timeout")).error = some s ∧ s ≠ "") ∧
    (QueryResult.mk false none (some "network timeout")).output = none :=
  (C4_exactly_one_of_output_error (.parsed (some "cookie"))
    (.thrown "network timeout") 0 (QueryResult.mk false none (some "network timeout"))
    (show ("network timeout" : String) ≠ "" by decide) rfl).2 rfl

/-- C5: with no explicit provider percentage, `total = T > 0` and
`used = U` present, the computed usage percentage is `U / T * 100`, and the
remaining percentage shown on the report's progress-bar line is
`calcRemainPercent (U / T * 100)`, i.e. `100 - U/T*100` clamped to
`[0, 100]`. -/
theorem C5_count_derived_percent (resp : MiniMaxRemainsResponse)
    (d : MiniMaxData) (session : String) (now T U : ℚ)
    (hd : resp.data = some d) (hp : d.usage_percentage = none)
    (ht : d.total_prompts = some T) (hT : 0 < T)
    (hu : d.used_prompts = some U) :
    usagePercentOf d = U / T * 100 ∧
    calcRemainPercent (U / T * 100) = max 0 (min 100 (100 - U / T * 100)) ∧
    (createProgressBar (calcRemainPercent (U / T * 100)) ++ " " ++
        t.remaining (calcRemainPercent (U / T * 100))) ∈
      formatMiniMaxUsageLines resp session now := by
  have htot : totalOf d = T := by rw [totalOf, ht]; rfl
  have hused : usedOf d = U := by rw [usedOf, hu]; rfl
  have hup : usagePercentOf d = U / T * 100 := by
    rw [usagePercentOf, hp, Option.getD_none, htot, hused, if_pos hT]
  refine ⟨hup, rfl, ?_⟩
  simp only [formatMiniMaxUsageLines, hd]
  rw [if_neg (fun hcontra => by rw [ht] at hcontra; exact Option.noConfusion hcontra.1)]
  rw [hup]
  apply List.mem_append_left
  apply List.mem_append_left
  simp

/-- C5 (witness): the theorem at `total = 100`, `used = 85`: the usage
percentage is `85 / 100 * 100` and the remaining percentage shown is its
clamped complement. -/
theorem C5_witness :
    usagePercentOf c5Data = 85 / 100 * 100 ∧
    calcRemainPercent (85 / 100 * 100) =
      max 0 (min 100 (100 - 85 / 100 * 100)) ∧
    (createProgressBar (calcRemainPercent (85 / 100 * 100)) ++ " " ++
        t.remaining (calcRemainPercent (85 / 100 * 100))) ∈
      formatMiniMaxUsageLines c5Resp "opaque-session-cookie" 0 :=
  C5_count_derived_percent c5Resp c5Data "opaque-session-cookie" 0 100 85
    rfl rfl rfl (by norm_num) rfl

/-- C6: on the numeric formatting path (payload present, the no-quota guard
not taken), the high-usage warning line is part of the report if and only if
the computed usage percentage is at least `HIGH_USAGE_THRESHOLD = 80`. -/
theorem C6_warning_iff_threshold (resp : MiniMaxRemainsResponse)
    (d : MiniMaxData) (session : String) (now : ℚ)
    (hd : resp.data = some d)
    (hpath : ¬(d.total_prompts = none ∧ d.remaining_prompts = none)) :
    t.limitReached ∈ formatMiniMaxUsageLines resp session now ↔
      HIGH_USAGE_THRESHOLD ≤ usagePercentOf d := by
  simp only [formatMiniMaxUsageLines, hd]
  rw [if_neg hpath]
  by_cases hu : HIGH_USAGE_THRESHOLD ≤ usagePercentOf d
  · rw [if_pos hu]
    exact ⟨fun _ => hu, fun _ => List.mem_append_right _ (by simp)⟩
  · rw [if_neg hu, List.append_nil]
    refine ⟨fun hmem => ?_, fun h => absurd h hu⟩
    exfalso
    rcases List.mem_append.mp hmem with hc | hr
    · simp only [List.mem_cons, List.not_mem_nil, or_false] at hc
      rcases hc with h | h | h | h | h
      · exact string_ne_of_head_ne (by rw [headerLine_head]; decide) h
      · exact absurd h (by decide)
      · exact absurd h (by decide)
      · exact string_ne_of_head_ne (by rw [barLine_head]; decide) h
      · exact string_ne_of_head_ne (by rw [usedLine_head]; decide) h
    · rcases hn : d.next_reset_time with _ | nrt
      · rw [hn] at hr
        simp [resetLinesOf] at hr
      · rw [hn] at hr
        simp only [resetLinesOf] at hr
        by_cases hz : nrt ≠ 0
        · rw [if_pos hz] at hr
          simp only [List.mem_singleton] at hr
          exact string_ne_of_head_ne (by rw [resetIn_head]; decide) hr
        · rw [if_neg hz] at hr
          simp at hr

/-- C6 (witness): the iff at an envelope with an explicit 85% usage
percentage (85 used of 100). -/
theorem C6_witness :
    t.limitReached ∈ formatMiniMaxUsageLines c6Resp "opaque-session-cookie" 0 ↔
      HIGH_USAGE_THRESHOLD ≤ usagePercentOf c6Data :=
  C6_warning_iff_threshold c6Resp c6Data "opaque-session-cookie" 0 rfl
    (fun hcontra => Option.noConfusion hcontra.1)

/-- C7: the reset countdown rendered on the numeric path is
`resetSecondsOf nextResetTime now = max 0 ⌊(nextResetTime - now) / 1000⌋`;
it is never negative, and whenever `nextResetTime ≤ now` it is exactly 0. -/
theorem C7_reset_countdown_clamped (resp : MiniMaxRemainsResponse)
    (d : MiniMaxData) (session : String) (nrt now : ℚ)
    (hd : resp.data = some d) (hn : d.next_reset_time = some nrt)
    (hnz : nrt ≠ 0)
    (hpath : ¬(d.total_prompts = none ∧ d.remaining_prompts = none)) :
    resetSecondsOf nrt now = max 0 ⌊(nrt - now) / 1000⌋ ∧
    0 ≤ resetSecondsOf nrt now ∧
    (nrt ≤ now → resetSecondsOf nrt now = 0) ∧
    t.resetIn (formatDuration (resetSecondsOf nrt now)) ∈
      formatMiniMaxUsageLines resp session now := by
  refine ⟨rfl, le_max_left _ _, fun hle => ?_, ?_⟩
  · rw [resetSecondsOf]
    apply max_eq_left
    apply Int.floor_nonpos
    have h1 : nrt - now ≤ 0 := sub_nonpos.mpr hle
    linarith
  · simp only [formatMiniMaxUsageLines, hd]
    rw [if_neg hpath]
    apply List.mem_append_left
    apply List.mem_append_right
    rw [hn]
    simp only [resetLinesOf]
    rw [if_pos hnz]
    simp

/-- C7 (witness): the countdown at a stale reset timestamp (1000 ms) with
the clock at 5000 ms: the rendered countdown is exactly 0 seconds, and the
reset line is part of the report. -/
theorem C7_witness :
    resetSecondsOf 1000 5000 = max 0 ⌊((1000 : ℚ) - 5000) / 1000⌋ ∧
    0 ≤ resetSecondsOf 1000 5000 ∧
    resetSecondsOf 1000 5000 = 0 ∧
    t.resetIn (formatDuration (resetSecondsOf 1000 5000)) ∈
      formatMiniMaxUsageLines c7Resp "opaque-session-cookie" 5000 := by
  obtain ⟨h1, h2, h3, h4⟩ := C7_reset_countdown_clamped c7Resp c7Data
    "opaque-session-cookie" 1000 5000 rfl rfl (by norm_num)
    (fun hcontra => Option.noConfusion hcontra.1)
  exact ⟨h1, h2, h3 (by norm_num), h4⟩

/-- C8: when the credential file is missing/unreadable (`readFile` throws)
or contains malformed JSON (`JSON.parse` throws), `loadMiniMaxSession`
returns `none` (without throwing), and the query returns the
`success = false` config-required result with `fetchWithTimeout` never
invoked (instrumentation flag `false`). -/
theorem C8_credential_absent_no_network (cred : CredFile) (net : FetchOutcome)
    (now : ℚ) (h : cred = CredFile.absent ∨ cred = CredFile.unparsable) :
    loadMiniMaxSession cred = none ∧
    queryMiniMaxUsageTr cred net now =
      (.ok (some { success := false, output := none,
                   error := some t.minimaxConfigRequired }), false) := by
  rcases h with h | h <;> subst h <;> exact ⟨rfl, rfl⟩

/-- C8 (witness): the theorem at a missing credential file with a transport
that would throw if it were ever invoked. -/
theorem C8_witness :
    loadMiniMaxSession CredFile.absent = none ∧
    queryMiniMaxUsageTr CredFile.absent (.thrown "unreachable") 0 =
      (.ok (some { success := false, output := none,
                   error := some t.minimaxConfigRequired }), false) :=
  C8_credential_absent_no_network CredFile.absent (.thrown "unreachable") 0
    (Or.inl rfl)

/-- C9: `fetchMiniMaxUsage` on a delivered response fails exactly when the
HTTP status is non-success (`ok = false`) or the envelope's
`base_resp.status_code` is non-zero; the message embeds the status/code and
the raw body (HTTP path) or the status message (envelope path, with an
"Unknown error" fallback for an empty message); and on the envelope path the
façade converts the failure into `success = false` with that message. -/
theorem C9_transport_and_envelope_errors (r : HttpResponse) (cred : CredFile)
    (s : String) (now : ℚ) :
    (r.ok = false →
      fetchMiniMaxUsage (.response r) =
        .error (t.minimaxApiError r.status r.bodyText)) ∧
    (∀ d : MiniMaxRemainsResponse, r.ok = true → r.jsonBody = .ok d →
      (d.base_resp.status_code = 0 → fetchMiniMaxUsage (.response r) = .ok d) ∧
      (d.base_resp.status_code ≠ 0 → d.base_resp.status_msg ≠ "" →
        fetchMiniMaxUsage (.response r) =
          .error (t.minimaxApiError d.base_resp.status_code d.base_resp.status_msg)) ∧
      (d.base_resp.status_code ≠ 0 → d.base_resp.status_msg = "" →
        fetchMiniMaxUsage (.response r) =
          .error (t.minimaxApiError d.base_resp.status_code "Unknown error"))) ∧
    (∀ code msg, ∃ pre mid,
      t.minimaxApiError code msg = pre ++ toString code ++ mid ++ msg) ∧
    (∀ d : MiniMaxRemainsResponse, loadMiniMaxSession cred = some s →
      r.ok = true → r.jsonBody = .ok d → d.base_resp.status_code ≠ 0 →
      d.base_resp.status_msg ≠ "" →
      queryMiniMaxUsage cred (.response r) now = .ok (some
        { success := false, output := none,
          error := some (t.minimaxApiError d.base_resp.status_code
            d.base_resp.status_msg) })) := by
  refine ⟨fun hok => ?_, fun d hok hj => ?_, fun code msg => ⟨_, _, rfl⟩,
    fun d hload hok hj hcode hmsg => ?_⟩
  · simp [fetchMiniMaxUsage, hok]
  · refine ⟨fun h0 => ?_, fun hne hmsg => ?_, fun hne hmsg => ?_⟩
    · simp [fetchMiniMaxUsage, hok, hj, h0]
    · simp [fetchMiniMaxUsage, hok, hj, hne, hmsg]
    · simp [fetchMiniMaxUsage, hok, hj, hne, hmsg]
  · have hf : fetchMiniMaxUsage (.response r) =
        .error (t.minimaxApiError d.base_resp.status_code d.base_resp.status_msg) := by
      simp [fetchMiniMaxUsage, hok, hj, hcode, hmsg]
    simp [queryMiniMaxUsage, queryMiniMaxUsageTr, hload, hf]

/-- C9 (witness): a 200-status response whose envelope reports
`status_code = 1`, `status_msg = "invalid session"`: the fetch throws the
API-error message, that message literally contains "invalid session", and
the query returns `success = false` carrying it. -/
theorem C9_witness :
    fetchMiniMaxUsage (.response c9Http) =
      .error (t.minimaxApiError 1 "invalid session") ∧
    (∃ pre mid, t.minimaxApiError 1 "invalid session" =
      pre ++ toString (1 : ℤ) ++ mid ++ "invalid session") ∧
    queryMiniMaxUsage (.parsed (some "cookie")) (.response c9Http) 0 =
      .ok (some { success := false, output := none,
                  error := some (t.minimaxApiError 1 "invalid session") }) := by
  obtain ⟨h1, h2, h3, h4⟩ := C9_transport_and_envelope_errors c9Http
    (.parsed (some "cookie")) "cookie" 0
  refine ⟨(h2 c9Env rfl rfl).2.1 (by decide) (by decide), h3 1 "invalid session",
    h4 c9Env rfl rfl rfl (by decide) (by decide)⟩

/-- C10: a credential file that parses but whose `session` field is absent
or the empty string is normalized by `loadMiniMaxSession` to `none`, so the
query behaves exactly like the absent-credential case: config-required
failure and no network call. -/
theorem C10_empty_session_like_absent (sOpt : Option String)
    (net : FetchOutcome) (now : ℚ) (h : sOpt = none ∨ sOpt = some "") :
    loadMiniMaxSession (CredFile.parsed sOpt) = none ∧
    queryMiniMaxUsageTr (CredFile.parsed sOpt) net now =
      (.ok (some { success := false, output := none,
                   error := some t.minimaxConfigRequired }), false) := by
  rcases h with h | h <;> subst h <;> exact ⟨rfl, rfl⟩

/-- C10 (witness): the theorem at a parsed credential file with
`session = ""`. -/
theorem C10_witness :
    loadMiniMaxSession (CredFile.parsed (some "")) = none ∧
    queryMiniMaxUsageTr (CredFile.parsed (some "")) (.thrown "unreachable") 0 =
      (.ok (some { success := false, output := none,
                   error := some t.minimaxConfigRequired }), false) :=
  C10_empty_session_like_absent (some "") (.thrown "unreachable") 0
    (Or.inr rfl)
